import Mathlib

/-!
Verification of the monitor-mode discovery subsystem of rtlamr2mqtt
(`app/helpers/monitor_mode.py`): the meter-type classifier
`guess_meter_type`, the per-meter defaults builder `get_smart_defaults`,
and the `MonitorModeTracker` operations (`load_discovered_meters`,
`add_meter`, `save_discovered_meters`,
`update_config_with_discovered_meters`).

The Python code is embedded shallowly:

* Python values that can appear as meter ids (strings, ints, `None`) are
  the type `PyVal`; Python dictionaries keyed by meter id become ordered
  association lists (`Catalog`), matching Python's insertion-ordered
  dicts.
* Fallible Python code (`int(...)` conversions, `KeyError` on a missing
  `'id'` key, `open` on a missing file) returns `Except String _`;
  the broad `except Exception` handlers become explicit catch branches.
* File contents are modelled at the level of the parsed document
  (what `yaml.safe_load` returns), not at the level of YAML text.
  `none` in a file-read position models an unreadable/absent file
  (`open` raising); `some d` models a successful read that parsed to
  document `d`.
-/

/-- A Python value usable as a meter id or protocol token: a string, an
integer, or `None`.  Equality of `PyVal`s mirrors Python `==` on these
types: an int never equals a string, `None` equals only `None`. -/
inductive PyVal where
  | pstr (s : String)
  | pint (n : Int)
  | pnone
  deriving DecidableEq, Repr

/-- Python truthiness for `PyVal`: empty string, `0` and `None` are
falsy, everything else truthy. -/
def pyTruthy : PyVal → Bool
  | .pstr s => !(s = "")
  | .pint n => !(n = 0)
  | .pnone => false

/-- Python `str()` on a `PyVal` (decimal form for ints, `"None"` for
`None`). -/
def pyStr : PyVal → String
  | .pstr s => s
  | .pint n => toString n
  | .pnone => "None"

/-- Accumulate decimal digits; `none` as soon as a non-digit appears. -/
def digitsAux : List Char → Nat → Option Nat
  | [], acc => some acc
  | c :: rest, acc =>
    if c.isDigit then digitsAux rest (acc * 10 + (c.toNat - 48)) else none

/-- Parse a non-empty all-digit list of characters as a natural number;
`none` on the empty list or on any non-digit. -/
def digitsToNat : List Char → Option Nat
  | [] => none
  | cs => digitsAux cs 0

/-- Python `int(s)` on a string: optional sign followed by at least one
decimal digit (leading zeros allowed, as in Python).  Python also
tolerates surrounding whitespace and `_` digit separators; those inputs
do not occur in this code base and are parsed as failures here. -/
def parseIntStr (s : String) : Option Int :=
  match s.data with
  | '-' :: rest => (digitsToNat rest).map (fun n => -(n : Int))
  | '+' :: rest => (digitsToNat rest).map (fun n => (n : Int))
  | l => (digitsToNat l).map (fun n => (n : Int))

/-- Python `int(x)` on a `PyVal`: identity on ints, string parsing on
strings (`ValueError` on failure), `TypeError` on `None`. -/
def pyInt : PyVal → Except String Int
  | .pint n => .ok n
  | .pstr s =>
    match parseIntStr s with
    | some n => .ok n
    | none => .error "ValueError"
  | .pnone => .error "TypeError"

/-- Python `str.lower()` restricted to per-character lowering (all
protocol tokens in this code base are ASCII). -/
def strLower (s : String) : String := ⟨s.data.map Char.toLower⟩

/-- The guard `consumption_rate and consumption_rate > threshold` from
`guess_meter_type`: `None` and `0` are falsy and short-circuit to
`False`; otherwise the comparison decides. -/
def consumption_exceeds (consumption_rate : Option Int) (threshold : Int) : Bool :=
  match consumption_rate with
  | none => false
  | some v => !(v = 0) && decide (v > threshold)

/-- Embedding of `guess_meter_type` (monitor_mode.py lines 9-44):
lower-cases the protocol (empty/falsy becomes `''`), returns `energy`
for `idm`/`netidm`, a consumption-thresholded `water`/`gas` for
`scm`/`scm+` (threshold 100000) and `r900`/`r900bcd` (threshold 50000),
and `energy` for anything else. -/
def guess_meter_type (protocol : String) (consumption_rate : Option Int) : String :=
  let p := if protocol = "" then "" else strLower protocol
  if p = "idm" ∨ p = "netidm" then "energy"
  else if p = "scm" ∨ p = "scm+" then
    if consumption_exceeds consumption_rate 100000 then "water" else "gas"
  else if p = "r900" ∨ p = "r900bcd" then
    if consumption_exceeds consumption_rate 50000 then "water" else "gas"
  else "energy"

/-- The classifier policy exactly as the specification states it
(spec section 4.1 / claim C3), for comparison with `guess_meter_type`:
lower-case the protocol, then `energy` for `idm`/`netidm` regardless of
consumption, `water`/`gas` by a strict threshold for the `scm` and
`r900` families (absent consumption means `gas`), `energy` otherwise. -/
def classify_spec (protocol : String) (consumption : Option Int) : String :=
  let p := strLower protocol
  if p = "idm" ∨ p = "netidm" then "energy"
  else if p = "scm" ∨ p = "scm+" then
    if (match consumption with | none => false | some v => decide (v > 100000)) then "water" else "gas"
  else if p = "r900" ∨ p = "r900bcd" then
    if (match consumption with | none => false | some v => decide (v > 50000)) then "water" else "gas"
  else "energy"

/-- A catalog entry as stored by `add_meter`: normalized protocol,
inferred device class, and the first observed consumption. -/
structure MeterEntry where
  protocol : String
  device_class : String
  first_seen_consumption : Option Int
  deriving DecidableEq, Repr

/-- The in-memory `discovered_meters` dictionary: an insertion-ordered
mapping from the meter id (stored exactly as passed to `add_meter`) to
its entry. -/
abbrev Catalog := List (PyVal × MeterEntry)

/-- Embedding of `MonitorModeTracker.add_meter` (lines 118-141):
coerce the protocol to text (falsy becomes `''`), and only when the
meter id is not yet a key and the catalog is below `max_meters`, append
a new entry classified by `guess_meter_type`. -/
def add_meter (discovered : Catalog) (max_meters : Nat) (meter_id : PyVal)
    (protocol : PyVal) (consumption : Option Int) : Catalog :=
  let protocolS := if pyTruthy protocol then pyStr protocol else ""
  if discovered.any (fun kv => kv.1 == meter_id) then
    discovered
  else if discovered.length < max_meters then
    discovered ++ [(meter_id,
      { protocol := strLower protocolS
        device_class := guess_meter_type protocolS consumption
        first_seen_consumption := consumption })]
  else
    discovered

/-- A meter definition as built by `get_smart_defaults` and appended to
the primary configuration's `meters` list. -/
structure MeterDef where
  id : Int
  protocol : String
  name : String
  device_class : String
  state_class : String
  format : Option String
  unit_of_measurement : Option String
  deriving DecidableEq, Repr

/-- Embedding of `get_smart_defaults` (lines 47-78): `int(meter_id)`
may raise (`ValueError`/`TypeError`), the name interpolates the original
meter id (`f'meter_...'` uses `meter_id`, not the parsed int), and the
format/unit pair is selected by device class.  The gas unit string is
the exact (mojibake) byte sequence present in the source file. -/
def get_smart_defaults (meter_id : PyVal) (protocol : String)
    (device_class : String) : Except String MeterDef :=
  match pyInt meter_id with
  | .error e => .error e
  | .ok idn =>
    let base : MeterDef :=
      { id := idn
        protocol := strLower protocol
        name := "meter_" ++ pyStr meter_id
        device_class := device_class
        state_class := "total_increasing"
        format := none
        unit_of_measurement := none }
    .ok (if device_class = "water" then
        { base with format := some "######.##", unit_of_measurement := some "gal" }
      else if device_class = "gas" then
        { base with format := some "######.##", unit_of_measurement := some "ftÂ³" }
      else if device_class = "energy" then
        { base with format := some "######.###", unit_of_measurement := some "kWh" }
      else base)

/-- An element of the primary configuration's `meters` list: either a
pre-existing entry (of which only the optional `id` field matters here;
`raw none` is an entry lacking an `'id'` key) or an entry appended by
the merge as a full `MeterDef`. -/
inductive CfgMeter where
  | raw (idv : Option PyVal)
  | derived (d : MeterDef)
  deriving DecidableEq, Repr

/-- Python `m['id']` on a config meter: `KeyError` when the key is
absent; a derived entry always carries its numeric id. -/
def cfgMeterIdVal : CfgMeter → Except String PyVal
  | .raw none => .error "KeyError"
  | .raw (some v) => .ok v
  | .derived d => .ok (.pint d.id)

/-- The set comprehension at line 177,
`existing_ids = set(str(m['id']) for m in config['meters'])`
(membership-only, so a list stands in for the set; the first `KeyError`
aborts it). -/
def idStrings : List CfgMeter → Except String (List String)
  | [] => .ok []
  | m :: rest =>
    match cfgMeterIdVal m with
    | .error e => .error e
    | .ok v =>
      match idStrings rest with
      | .error e => .error e
      | .ok l => .ok (pyStr v :: l)

/-- Python membership `meter_id in existing_ids` where `existing_ids`
is a set of strings: an int or `None` never equals a string, so only a
string key can be a member. -/
def pyValInStrSet : PyVal → List String → Bool
  | .pstr s, ids => ids.contains s
  | .pint _, _ => false
  | .pnone, _ => false

/-- The primary configuration document as far as the merge inspects it:
an optional `meters` list (`none` models a document without a `meters`
key).  Other top-level keys are untouched by the merge and omitted. -/
structure PrimaryDoc where
  meters : Option (List CfgMeter)
  deriving DecidableEq, Repr

/-- Result of one call to `update_config_with_discovered_meters`:
`written` is the document written back (or `none` when the method did
not write), and `errorLogged` records whether the broad
`except Exception` handler ran (logging the failure). -/
structure MergeOutcome where
  written : Option PrimaryDoc
  errorLogged : Bool
  deriving DecidableEq, Repr

/-- The `for meter_id, meter_info in self.discovered_meters.items()`
loop (lines 183-191): skip ids already present (string-set membership)
or once `added_count` has reached `max_meters`; otherwise build the
defaults (which may raise) and append. -/
def addLoop (max_meters : Nat) (existing_ids : List String) :
    Catalog → Nat → List CfgMeter → Except String (List CfgMeter × Nat)
  | [], count, ms => .ok (ms, count)
  | (mid, info) :: rest, count, ms =>
    if pyValInStrSet mid existing_ids = false ∧ count < max_meters then
      match get_smart_defaults mid info.protocol info.device_class with
      | .error e => .error e
      | .ok d => addLoop max_meters existing_ids rest (count + 1) (ms ++ [.derived d])
    else
      addLoop max_meters existing_ids rest count ms

/-- The body of the `try` block of
`update_config_with_discovered_meters` (lines 166-199).  `file = none`
models `open(self.config_path)` raising (absent/unreadable file);
`some none` models a file whose `safe_load` returned `None` (handled by
`if config is None: config = {}`); `some (some doc)` a parsed document.
An `'id'`-less existing meter raises `KeyError` out of the set
comprehension; a non-coercible meter id raises out of
`get_smart_defaults`.  The file is written only when `added_count > 0`. -/
def mergeTry (discovered : Catalog) (max_meters : Nat)
    (file : Option (Option PrimaryDoc)) : Except String MergeOutcome :=
  match file with
  | none => .error "IOError"
  | some loaded =>
    let config : PrimaryDoc := loaded.getD { meters := none }
    let step : Except String (List String × List CfgMeter) :=
      match config.meters with
      | some ms =>
        if ms.isEmpty then .ok ([], ms)
        else
          match idStrings ms with
          | .error e => .error e
          | .ok ids => .ok (ids, ms)
      | none => .ok ([], [])
    match step with
    | .error e => .error e
    | .ok (ids, ms0) =>
      match addLoop max_meters ids discovered 0 ms0 with
      | .error e => .error e
      | .ok (ms1, count) =>
        .ok { written := if 0 < count then some { meters := some ms1 } else none
              errorLogged := false }

/-- Embedding of `update_config_with_discovered_meters` (lines
158-203): the early return on an empty catalog, then the `try` body
with the broad `except Exception` handler, which logs and returns
normally — so the method never propagates an exception.  The
`discovered_meters` attribute is never assigned by this method, so the
catalog is unchanged by construction. -/
def update_config_with_discovered_meters (discovered : Catalog) (max_meters : Nat)
    (file : Option (Option PrimaryDoc)) : Except String MergeOutcome :=
  if discovered.isEmpty then .ok { written := none, errorLogged := false }
  else
    match mergeTry discovered max_meters file with
    | .ok o => .ok o
    | .error _ => .ok { written := none, errorLogged := true }

/-- The additions a merge pass makes when the `added_count <
max_meters` budget never binds: one derived definition per catalog
entry whose id is not among the existing id strings.  Helper used to
characterise `addLoop` below. -/
def newDefs (existing_ids : List String) : Catalog → Except String (List CfgMeter)
  | [] => .ok []
  | (mid, info) :: rest =>
    if pyValInStrSet mid existing_ids = false then
      match get_smart_defaults mid info.protocol info.device_class with
      | .error e => .error e
      | .ok d =>
        match newDefs existing_ids rest with
        | .error e => .error e
        | .ok ds => .ok (.derived d :: ds)
    else newDefs existing_ids rest

/-- A meter id key in canonical form: a string that Python's `int()`
parses and whose `str(int(...))` round-trip reproduces it (e.g. `"10"`
but not `"007"`, `" 7"`, or a non-string key). -/
def canonicalKeyB : PyVal → Bool
  | .pstr s =>
    match parseIntStr s with
    | some n => toString n == s
    | none => false
  | .pint _ => false
  | .pnone => false

/-- Fuel-bounded embedding of Python `str.replace` on character lists:
scan left to right, replacing each non-overlapping occurrence of `pat`
by `rep`.  One unit of fuel is spent per scan position, so fuel equal
to the input length always suffices. -/
def listReplaceFuel (pat rep : List Char) : Nat → List Char → List Char
  | _, [] => []
  | 0, c :: rest => c :: rest
  | fuel + 1, c :: rest =>
    if pat.isPrefixOf (c :: rest) then
      rep ++ listReplaceFuel pat rep fuel ((c :: rest).drop pat.length)
    else
      c :: listReplaceFuel pat rep fuel rest

/-- Python `s.replace(pat, rep)` for a non-empty pattern. -/
def pyReplace (s pat rep : String) : String :=
  ⟨listReplaceFuel pat.data rep.data s.data.length s.data⟩

/-- The catalog-file path derivation used identically at lines 105 and
147: `config_path.replace('.yaml',
'_discovered.yaml').replace('.yml', '_discovered.yaml')`. -/
def discovered_file_path (config_path : String) : String :=
  pyReplace (pyReplace config_path ".yaml" "_discovered.yaml") ".yml" "_discovered.yaml"

/-- A parsed YAML document (what `yaml.safe_load` yields for the files
this subsystem touches): null, integers, strings, and mappings. -/
inductive Yaml where
  | ynull : Yaml
  | yint : Int → Yaml
  | ystr : String → Yaml
  | ymap : List (Yaml × Yaml) → Yaml

/-- Python `d['k']` / `'k' in d` for a string key against a parsed
mapping: only a string key of the mapping can match (Python `==` never
equates a string with an int or `None`). -/
def yamlLookupStr (entries : List (Yaml × Yaml)) (k : String) : Option Yaml :=
  entries.findSome? (fun kv =>
    match kv.1 with
    | .ystr s => if s = k then some kv.2 else none
    | _ => none)

/-- YAML encoding of a meter-id key as `safe_dump`/`safe_load`
round-trip it: strings stay strings (numeric-looking string keys are
quoted by `safe_dump`), ints stay ints, `None` becomes null. -/
def encodeKey : PyVal → Yaml
  | .pstr s => .ystr s
  | .pint n => .yint n
  | .pnone => .ynull

/-- YAML encoding of one catalog entry: the three-field mapping
written by `save_discovered_meters`. -/
def encodeEntry (e : MeterEntry) : Yaml :=
  .ymap [(.ystr "protocol", .ystr e.protocol),
         (.ystr "device_class", .ystr e.device_class),
         (.ystr "first_seen_consumption",
          match e.first_seen_consumption with
          | none => .ynull
          | some n => .yint n)]

/-- YAML encoding of the whole `discovered_meters` mapping. -/
def encodeCatalog (c : Catalog) : Yaml :=
  .ymap (c.map fun kv => (encodeKey kv.1, encodeEntry kv.2))

/-- Embedding of `save_discovered_meters` (lines 143-156): the document
written to the catalog file, `{'discovered_meters': catalog}`. -/
def save_discovered_meters (discovered : Catalog) : Yaml :=
  .ymap [(.ystr "discovered_meters", encodeCatalog discovered)]

/-- Embedding of `load_discovered_meters` (lines 101-116) at the
document level.  Input `none` covers a missing/unreadable file and a
read or parse failure (all leave the catalog as it was); on a parsed
document, `if data and 'discovered_meters' in data` assigns the raw
subtree under `discovered_meters` — with no validation and no capacity
check — and anything falsy or keyless changes nothing (`some v` means
the in-memory catalog becomes `v`; `none` means it is left alone). -/
def load_discovered_meters : Option Yaml → Option Yaml
  | some (.ymap entries) =>
    if entries.isEmpty then none
    else yamlLookupStr entries "discovered_meters"
  | _ => none

/-- Python `len()` of a parsed YAML value, as used on the in-memory
catalog after a load (`len(self.discovered_meters)`). -/
def yamlLen : Yaml → Nat
  | .ymap entries => entries.length
  | .ystr s => s.length
  | _ => 0

/-- One operation of the tracker's callable surface, for stating
whole-lifecycle invariants.  `save` and `merge` never assign
`self.discovered_meters` in the source, so they leave the catalog
unchanged. -/
inductive TrackerOp where
  | record (meter_id : PyVal) (protocol : PyVal) (consumption : Option Int)
  | save
  | merge (file : Option (Option PrimaryDoc))

/-- Effect of one tracker operation on the in-memory catalog. -/
def applyOp (max_meters : Nat) (d : Catalog) : TrackerOp → Catalog
  | .record k p c => add_meter d max_meters k p c
  | .save => d
  | .merge _ => d

/-- Run a sequence of tracker operations on the in-memory catalog. -/
def runOps (max_meters : Nat) (d : Catalog) : List TrackerOp → Catalog
  | [] => d
  | op :: rest => runOps max_meters (applyOp max_meters d op) rest


/-- The catalog entry used by the concrete merge examples below. -/
def entryScmGas : MeterEntry :=
  { protocol := "scm", device_class := "gas", first_seen_consumption := some 5 }

/-- A one-entry catalog whose key `'007'` is integer-coercible but not
canonical (`str(int('007')) = '7' ≠ '007'`). -/
def catalog007 : Catalog := [(.pstr "007", entryScmGas)]

/-- A one-entry catalog with the canonical key `'10'`. -/
def catalog10 : Catalog := [(.pstr "10", entryScmGas)]

/-- The meter definition that `get_smart_defaults` builds for the
`'007'` catalog entry. -/
def meterDef007 : MeterDef :=
  { id := 7, protocol := "scm", name := "meter_007", device_class := "gas"
    state_class := "total_increasing", format := some "######.##"
    unit_of_measurement := some "ftÂ³" }


/-- A catalog-file document holding two discovered meters, used to
exercise `load_discovered_meters` against a tracker whose
`max_meters` is 1. -/
def twoMeterYaml : Yaml :=
  .ymap [(.ystr "1", encodeEntry { protocol := "scm", device_class := "gas"
                                   first_seen_consumption := none }),
         (.ystr "2", encodeEntry { protocol := "scm", device_class := "gas"
                                   first_seen_consumption := none })]

deriving instance DecidableEq for Except

/-- Lowering the empty string gives the empty string. -/
theorem strLower_empty : strLower "" = "" := rfl

/-- For a positive threshold, the Python truthiness guard
`consumption_rate and consumption_rate > t` agrees with the plain
comparison `consumption_rate > t` (with absent consumption as false). -/
theorem consumption_exceeds_pos (consumption : Option Int) (t : Int) (ht : 0 < t) :
    consumption_exceeds consumption t =
      (match consumption with | none => false | some v => decide (v > t)) := by
  cases consumption with
  | none => rfl
  | some v =>
    simp only [consumption_exceeds]
    by_cases h : v > t
    · have hv : ¬ (v = 0) := by omega
      simp [h, hv]
    · simp [h]

/-- A `record` whose meter id is already a key of the catalog changes
nothing. -/
theorem add_meter_mem_noop (d : Catalog) (max_meters : Nat) (k p : PyVal) (c : Option Int)
    (h : (d.any fun kv => kv.1 == k) = true) :
    add_meter d max_meters k p c = d := by
  unfold add_meter
  simp [h]

/-- A `record` against a catalog at or above capacity changes
nothing. -/
theorem add_meter_at_capacity (d : Catalog) (max_meters : Nat) (k p : PyVal) (c : Option Int)
    (h : max_meters ≤ d.length) :
    add_meter d max_meters k p c = d := by
  unfold add_meter
  by_cases h1 : (d.any fun kv => kv.1 == k) = true
  · simp [h1]
  · simp only [Bool.not_eq_true] at h1
    have : ¬ d.length < max_meters := by omega
    simp [h1, this]

/-- Every `record` either leaves the catalog unchanged or, when below
capacity, appends exactly one new entry at the end. -/
theorem add_meter_cases (d : Catalog) (max_meters : Nat) (k p : PyVal) (c : Option Int) :
    add_meter d max_meters k p c = d ∨
      (d.length < max_meters ∧ ∃ e, add_meter d max_meters k p c = d ++ [(k, e)]) := by
  unfold add_meter
  by_cases h1 : (d.any fun kv => kv.1 == k) = true
  · left; simp [h1]
  · by_cases h2 : d.length < max_meters
    · right
      refine ⟨h2, ⟨{ protocol := strLower (if pyTruthy p then pyStr p else "")
                     device_class := guess_meter_type (if pyTruthy p then pyStr p else "") c
                     first_seen_consumption := c }, ?_⟩⟩
      simp only [Bool.not_eq_true] at h1
      simp [h1, h2]
    · left
      simp only [Bool.not_eq_true] at h1
      simp [h1, h2]

/-- Any sequence of tracker operations preserves the capacity bound and
only ever appends catalog entries. -/
theorem runOps_invariant (max_meters : Nat) (ops : List TrackerOp) :
    ∀ init : Catalog, init.length ≤ max_meters →
      (runOps max_meters init ops).length ≤ max_meters ∧
        ∃ tl, runOps max_meters init ops = init ++ tl := by
  induction ops with
  | nil => intro init h; exact ⟨h, [], by simp [runOps]⟩
  | cons op rest ih =>
    intro init h
    have hstep : (applyOp max_meters init op).length ≤ max_meters ∧
        ∃ tl0, applyOp max_meters init op = init ++ tl0 := by
      cases op with
      | record k p c =>
        rcases add_meter_cases init max_meters k p c with heq | ⟨hlt, e, heq⟩
        · exact ⟨by simpa [applyOp, heq] using h, [], by simp [applyOp, heq]⟩
        · refine ⟨?_, [(k, e)], by simp [applyOp, heq]⟩
          simp only [applyOp, heq]
          simp
          omega
      | save => exact ⟨h, [], by simp [applyOp]⟩
      | merge f => exact ⟨h, [], by simp [applyOp]⟩
    obtain ⟨h1, tl0, h2⟩ := hstep
    obtain ⟨h3, tl1, h4⟩ := ih (applyOp max_meters init op) h1
    refine ⟨by simpa [runOps] using h3, tl0 ++ tl1, ?_⟩
    simp only [runOps]
    rw [h4, h2, List.append_assoc]

/-- The id strings of an appended meter list are the appended id
strings. -/
theorem idStrings_append (xs ys : List CfgMeter) (lx ly : List String)
    (hx : idStrings xs = .ok lx) (hy : idStrings ys = .ok ly) :
    idStrings (xs ++ ys) = .ok (lx ++ ly) := by
  induction xs generalizing lx with
  | nil =>
    simp only [idStrings] at hx
    cases hx
    simpa using hy
  | cons m rest ih =>
    simp only [idStrings] at hx ⊢
    cases hv : cfgMeterIdVal m with
    | error e => simp [hv] at hx
    | ok v =>
      simp only [hv] at hx
      cases hr : idStrings rest with
      | error e => simp [hr] at hx
      | ok l =>
        simp only [hr] at hx
        cases hx
        simp only [List.cons_append]
        rw [show rest.append ys = rest ++ ys from rfl, ih l hr]

/-- A successful `idStrings` yields one string per meter. -/
theorem idStrings_length (xs : List CfgMeter) (l : List String)
    (h : idStrings xs = .ok l) : xs.length = l.length := by
  induction xs generalizing l with
  | nil => simp only [idStrings] at h; cases h; rfl
  | cons m rest ih =>
    simp only [idStrings] at h
    cases hv : cfgMeterIdVal m with
    | error e => simp [hv] at h
    | ok v =>
      simp only [hv] at h
      cases hr : idStrings rest with
      | error e => simp [hr] at h
      | ok l2 =>
        simp only [hr] at h
        cases h
        simp [ih l2 hr]

/-- The set comprehension over a meters list containing an entry that
lacks an `'id'` key always raises `KeyError`. -/
theorem idStrings_keyerr (pre post : List CfgMeter) :
    idStrings (pre ++ .raw none :: post) = .error "KeyError" := by
  induction pre with
  | nil => rfl
  | cons m rest ih =>
    simp only [List.cons_append, idStrings]
    cases hv : cfgMeterIdVal m with
    | error e =>
      cases m with
      | raw o => cases o <;> simp_all [cfgMeterIdVal]
      | derived d => simp [cfgMeterIdVal] at hv
    | ok v => simp [ih]

/-- Unpack a canonical key: it is a string that parses to an integer
whose decimal form is the original string. -/
theorem canonicalKeyB_spec (v : PyVal) (h : canonicalKeyB v = true) :
    ∃ s n, v = .pstr s ∧ parseIntStr s = some n ∧ toString n = s := by
  cases v with
  | pstr s =>
    simp only [canonicalKeyB] at h
    cases hp : parseIntStr s with
    | none => simp [hp] at h
    | some n =>
      simp only [hp] at h
      exact ⟨s, n, rfl, hp, by simpa using h⟩
  | pint n => simp [canonicalKeyB] at h
  | pnone => simp [canonicalKeyB] at h

/-- When every catalog key is already among the existing id strings,
the add loop makes no additions. -/
theorem addLoop_skip_all (max_meters : Nat) (existing_ids : List String) (cat : Catalog)
    (hall : ∀ kv ∈ cat, pyValInStrSet kv.1 existing_ids = true) :
    ∀ n ms, addLoop max_meters existing_ids cat n ms = .ok (ms, n) := by
  induction cat with
  | nil => intro n ms; rfl
  | cons kv rest ih =>
    intro n ms
    obtain ⟨mid, info⟩ := kv
    have hm : pyValInStrSet mid existing_ids = true := hall (mid, info) (by simp)
    simp only [addLoop]
    rw [if_neg (by simp [hm])]
    exact ih (fun kv hkv => hall kv (by simp [hkv])) n ms

/-- When the catalog fits in the remaining budget, the add loop is the
simple filtered append described by `newDefs` (the `added_count <
max_meters` cap never binds). -/
theorem addLoop_eq_newDefs (max_meters : Nat) (existing_ids : List String) (cat : Catalog) :
    ∀ n ms, cat.length + n ≤ max_meters →
      addLoop max_meters existing_ids cat n ms =
        (match newDefs existing_ids cat with
          | .error e => .error e
          | .ok ds => .ok (ms ++ ds, n + ds.length)) := by
  induction cat with
  | nil => intro n ms h; simp [addLoop, newDefs]
  | cons kv rest ih =>
    intro n ms h
    obtain ⟨mid, info⟩ := kv
    simp only [addLoop, newDefs]
    by_cases hm : pyValInStrSet mid existing_ids = false
    · have hlt : n < max_meters := by simp at h; omega
      rw [if_pos ⟨hm, hlt⟩, if_pos hm]
      cases hd : get_smart_defaults mid info.protocol info.device_class with
      | error e => rfl
      | ok d =>
        dsimp only
        have hih := ih (n + 1) (ms ++ [CfgMeter.derived d]) (by simp at h ⊢; omega)
        rw [hih]
        cases hnd : newDefs existing_ids rest with
        | error e => rfl
        | ok ds =>
          dsimp only
          simp only [Except.ok.injEq, Prod.mk.injEq]
          refine ⟨by simp, by simp; omega⟩
    · rw [if_neg (by intro hcon; exact hm hcon.1), if_neg hm]
      exact ih n ms (by simp at h ⊢; omega)

/-- On a catalog of canonical keys, `newDefs` succeeds and produces
entries whose id strings are exactly the catalog keys not already
present. -/
theorem newDefs_canonical (existing_ids : List String) (cat : Catalog)
    (hc : ∀ kv ∈ cat, canonicalKeyB kv.1 = true) :
    ∃ ds, newDefs existing_ids cat = .ok ds ∧
      idStrings ds = .ok ((cat.map fun kv => pyStr kv.1).filter
        (fun s => !existing_ids.contains s)) := by
  induction cat with
  | nil => exact ⟨[], rfl, rfl⟩
  | cons kv rest ih =>
    obtain ⟨mid, info⟩ := kv
    obtain ⟨s, n, hmid, hparse, hts⟩ := canonicalKeyB_spec mid (hc (mid, info) (by simp))
    subst hmid
    obtain ⟨ds, hds, hids⟩ := ih (fun kv hkv => hc kv (by simp [hkv]))
    by_cases hm : existing_ids.contains s
    · refine ⟨ds, ?_, ?_⟩
      · simp only [newDefs, pyValInStrSet]
        rw [if_neg (by rw [hm]; simp)]
        exact hds
      · simp only [List.map_cons, List.filter_cons, pyStr, hm]
        simpa using hids
    · simp only [Bool.not_eq_true] at hm
      cases hgd : get_smart_defaults (.pstr s) info.protocol info.device_class with
      | error e =>
        exfalso
        simp only [get_smart_defaults, pyInt, hparse] at hgd
        simp at hgd
      | ok d =>
        have hdid : d.id = n := by
          simp only [get_smart_defaults, pyInt, hparse] at hgd
          cases hgd
          simp [apply_ite MeterDef.id]
        refine ⟨.derived d :: ds, ?_, ?_⟩
        · simp only [newDefs, pyValInStrSet]
          rw [if_pos hm, hgd, hds]
        · simp only [idStrings, cfgMeterIdVal, hids]
          simp only [List.map_cons, List.filter_cons, pyStr]
          rw [hm]
          simp [hdid, hts]

/-- String-list membership agrees with `List.contains`. -/
theorem contains_mem_str {l : List String} {s : String} : l.contains s = true ↔ s ∈ l := by
  simp [List.contains_iff_exists_mem_beq, beq_iff_eq]

/-- A string with a false `contains` test is not a member. -/
theorem contains_false_not_mem {l : List String} {s : String}
    (h : l.contains s = false) : s ∉ l := by
  intro hm
  rw [contains_mem_str.mpr hm] at h
  cases h

/-- Characterisation of one merge pass over a present configuration
with meter list `ms0` whose id strings are `l`: the loop computes
`newDefs`, and the file is written exactly when something was added. -/
theorem merge_first (cat : Catalog) (max_meters : Nat) (ms0 : List CfgMeter) (l : List String)
    (hc : ∀ kv ∈ cat, canonicalKeyB kv.1 = true)
    (hlen : cat.length ≤ max_meters)
    (hids : idStrings ms0 = .ok l) :
    ∃ ds, newDefs l cat = .ok ds ∧
      idStrings ds = .ok ((cat.map fun kv => pyStr kv.1).filter (fun s => !l.contains s)) ∧
      update_config_with_discovered_meters cat max_meters (some (some { meters := some ms0 })) =
        .ok { written := if 0 < ds.length then some { meters := some (ms0 ++ ds) } else none
              errorLogged := false } := by
  obtain ⟨ds, hds, hidsF⟩ := newDefs_canonical l cat hc
  refine ⟨ds, hds, hidsF, ?_⟩
  by_cases hcat : cat.isEmpty
  · have hcat' : cat = [] := by simpa [List.isEmpty_iff] using hcat
    subst hcat'
    simp only [newDefs] at hds
    cases hds
    simp [update_config_with_discovered_meters]
  · rw [update_config_with_discovered_meters, if_neg (by simp [hcat])]
    have hstep : mergeTry cat max_meters (some (some { meters := some ms0 })) =
        .ok { written := if 0 < ds.length then some { meters := some (ms0 ++ ds) } else none
              errorLogged := false } := by
      rw [mergeTry]
      simp only [Option.getD]
      by_cases hms0 : ms0.isEmpty
      · have hms0' : ms0 = [] := by simpa [List.isEmpty_iff] using hms0
        subst hms0'
        simp only [idStrings] at hids
        cases hids
        simp only [List.isEmpty_nil, if_true]
        rw [addLoop_eq_newDefs max_meters [] cat 0 [] (by omega), hds]
        simp
      · rw [if_neg hms0, hids]
        dsimp only
        rw [addLoop_eq_newDefs max_meters l cat 0 ms0 (by omega), hds]
        simp
    rw [hstep]

/-- A merge pass against a meter list whose id strings already cover
every catalog key adds nothing and writes nothing. -/
theorem merge_noop (cat : Catalog) (max_meters : Nat) (ms1 : List CfgMeter) (l1 : List String)
    (hall : ∀ kv ∈ cat, pyValInStrSet kv.1 l1 = true)
    (hids1 : idStrings ms1 = .ok l1) :
    update_config_with_discovered_meters cat max_meters (some (some { meters := some ms1 })) =
      .ok { written := none, errorLogged := false } := by
  by_cases hcat : cat.isEmpty
  · rw [update_config_with_discovered_meters, if_pos hcat]
  · rw [update_config_with_discovered_meters, if_neg hcat]
    have hcatne : cat ≠ [] := by simpa [List.isEmpty_iff] using hcat
    by_cases hms1 : ms1.isEmpty
    · exfalso
      have hms1' : ms1 = [] := by simpa [List.isEmpty_iff] using hms1
      subst hms1'
      simp only [idStrings] at hids1
      cases hids1
      obtain ⟨kv, hkv⟩ := List.exists_mem_of_ne_nil cat hcatne
      have := hall kv hkv
      cases h1 : kv.1 <;> simp [h1, pyValInStrSet] at this
    · have hstep : mergeTry cat max_meters (some (some { meters := some ms1 })) =
          .ok { written := none, errorLogged := false } := by
        rw [mergeTry]
        simp only [Option.getD]
        rw [if_neg hms1, hids1]
        dsimp only
        rw [addLoop_skip_all max_meters l1 cat hall 0 ms1]
        simp
      rw [hstep]

/-- Definitional reduction of `mergeTry` on a present configuration
document. -/
theorem mergeTry_doc (cat : Catalog) (max_meters : Nat) (ms : List CfgMeter) :
    mergeTry cat max_meters (some (some { meters := some ms })) =
      (match
        (if ms.isEmpty then Except.ok ([], ms)
          else match idStrings ms with
            | .error e => .error e
            | .ok ids => .ok (ids, ms)) with
        | .error e => .error e
        | .ok (ids, ms0) =>
          match addLoop max_meters ids cat 0 ms0 with
          | .error e => .error e
          | .ok (ms1, count) =>
            .ok { written := if 0 < count then some { meters := some ms1 } else none
                  errorLogged := false }) := rfl

/-- The YAML encoding of a meter-id key is injective. -/
theorem encodeKey_inj : Function.Injective encodeKey := by
  intro a b h
  cases a <;> cases b <;> simp_all [encodeKey]

/-- The YAML encoding of a catalog entry is injective. -/
theorem encodeEntry_inj : Function.Injective encodeEntry := by
  intro a b h
  obtain ⟨pa, da, fa⟩ := a
  obtain ⟨pb, db, fb⟩ := b
  simp only [encodeEntry, Yaml.ymap.injEq, List.cons.injEq, Prod.mk.injEq] at h
  obtain ⟨⟨-, h1⟩, ⟨-, h2⟩, ⟨-, h3⟩, -⟩ := h
  simp only [Yaml.ystr.injEq] at h1 h2
  cases fa <;> cases fb <;> simp_all

/-- The YAML encoding of the whole catalog is injective, so two
catalogs with the same on-disk document are the same catalog. -/
theorem encodeCatalog_inj : Function.Injective encodeCatalog := by
  intro c1 c2 h
  simp only [encodeCatalog, Yaml.ymap.injEq] at h
  refine List.map_injective_iff.mpr ?_ h
  intro kv1 kv2 hkv
  simp only [Prod.mk.injEq] at hkv
  obtain ⟨h1, h2⟩ := hkv
  obtain ⟨k1, e1⟩ := kv1
  obtain ⟨k2, e2⟩ := kv2
  simp only at h1 h2
  rw [encodeKey_inj h1, encodeEntry_inj h2]

/-- Scanning a dot-free segment never matches a pattern that starts
with a dot, so replacement distributes over the append. -/
theorem listReplaceFuel_dotfree (p' rep : List Char) (s : List Char)
    (hs : ∀ c ∈ s, c ≠ '.') :
    ∀ fuel t, (s ++ t).length ≤ fuel →
      listReplaceFuel ('.' :: p') rep fuel (s ++ t) =
        s ++ listReplaceFuel ('.' :: p') rep (fuel - s.length) t := by
  induction s with
  | nil => intro fuel t h; simp
  | cons c s' ih =>
    intro fuel t h
    cases fuel with
    | zero => simp at h
    | succ f =>
      have hc : c ≠ '.' := hs c (by simp)
      simp only [List.cons_append, listReplaceFuel]
      rw [if_neg ?_]
      · rw [List.append_eq]
        rw [ih (fun x hx => hs x (by simp [hx])) f t (by simp at h ⊢; omega)]
        simp [Nat.succ_sub_succ]
      · simp only [List.isPrefixOf, Bool.and_eq_true, beq_iff_eq]
        rintro ⟨hdot, -⟩
        exact hc hdot.symm

/-- `str.replace` with a dot-initial pattern leaves a dot-free stem
untouched and acts only on the remainder. -/
theorem pyReplace_dotfree (stem t pat rep : String) (p' : List Char)
    (hpat : pat.data = '.' :: p')
    (hs : ∀ c ∈ stem.data, c ≠ '.') :
    pyReplace (stem ++ t) pat rep =
      stem ++ ⟨listReplaceFuel pat.data rep.data t.data.length t.data⟩ := by
  rw [pyReplace]
  have hdata : (stem ++ t).data = stem.data ++ t.data := String.data_append stem t
  rw [hdata, hpat]
  rw [listReplaceFuel_dotfree p' rep.data stem.data hs ((stem.data ++ t.data).length) t.data
    (by omega)]
  have hlen : (stem.data ++ t.data).length - stem.data.length = t.data.length := by
    simp
  rw [hlen, ← hpat]
  refine String.ext ?_
  rw [String.data_append]

/-- The catalog path derived from a dot-free stem with a `.yaml`
extension. -/
theorem discovered_path_stem_yaml (stem : String) (hs : ∀ c ∈ stem.data, c ≠ '.') :
    discovered_file_path (stem ++ ".yaml") = stem ++ "_discovered.yaml" := by
  rw [discovered_file_path]
  rw [pyReplace_dotfree stem ".yaml" ".yaml" "_discovered.yaml" "yaml".data (by decide) hs]
  have e1 : (⟨listReplaceFuel ".yaml".data "_discovered.yaml".data ".yaml".data.length
      ".yaml".data⟩ : String) = "_discovered.yaml" := by decide
  rw [e1]
  rw [pyReplace_dotfree stem "_discovered.yaml" ".yml" "_discovered.yaml" "yml".data
    (by decide) hs]
  have e2 : (⟨listReplaceFuel ".yml".data "_discovered.yaml".data
      "_discovered.yaml".data.length "_discovered.yaml".data⟩ : String) =
      "_discovered.yaml" := by decide
  rw [e2]

/-- The catalog path derived from a dot-free stem with a `.yml`
extension: the extension family is normalized to `.yaml`. -/
theorem discovered_path_stem_yml (stem : String) (hs : ∀ c ∈ stem.data, c ≠ '.') :
    discovered_file_path (stem ++ ".yml") = stem ++ "_discovered.yaml" := by
  rw [discovered_file_path]
  rw [pyReplace_dotfree stem ".yml" ".yaml" "_discovered.yaml" "yaml".data (by decide) hs]
  have e1 : (⟨listReplaceFuel ".yaml".data "_discovered.yaml".data ".yml".data.length
      ".yml".data⟩ : String) = ".yml" := by decide
  rw [e1]
  rw [pyReplace_dotfree stem ".yml" ".yml" "_discovered.yaml" "yml".data (by decide) hs]
  have e2 : (⟨listReplaceFuel ".yml".data "_discovered.yaml".data ".yml".data.length
      ".yml".data⟩ : String) = "_discovered.yaml" := by decide
  rw [e2]

/-- C1 (counterexample): with the catalog `{'007': scm/gas}` and a
primary configuration with an empty meter list, the first merge writes
one meter with id 7, and a second merge with the unchanged catalog
re-adds it (`'007'` is not in the existing-id set `{'7'}`), writing a
meter list with two entries sharing id 7 — so merging twice is neither
idempotent nor duplicate-free as the claim states. -/
theorem C1_merge_idempotent_counterexample :
    update_config_with_discovered_meters catalog007 25
        (some (some { meters := some [] })) =
      .ok { written := some { meters := some [.derived meterDef007] }
            errorLogged := false } ∧
    update_config_with_discovered_meters catalog007 25
        (some (some { meters := some [.derived meterDef007] })) =
      .ok { written := some { meters := some [.derived meterDef007, .derived meterDef007] }
            errorLogged := false } := by
  exact ⟨by decide, by decide⟩

/-- C1 (amended): provided every catalog key is a canonical decimal
string (`str(int(k)) == k`), the key strings are pairwise distinct, the
catalog fits in `max_meters`, and the existing meters all carry `id`
fields with pairwise-distinct string forms, then after the first merge
the meter list `ms1` has no two entries sharing an id (compared as
strings, witnessed by `l1.Nodup`), and a second merge with the
unchanged catalog adds nothing and does not write — the meter list is
identical after the second call to what it was after the first. -/
theorem C1_merge_idempotent_amended (cat : Catalog) (max_meters : Nat)
    (ms0 : List CfgMeter) (l : List String)
    (hc : ∀ kv ∈ cat, canonicalKeyB kv.1 = true)
    (hk : (cat.map fun kv => pyStr kv.1).Nodup)
    (hlen : cat.length ≤ max_meters)
    (hids : idStrings ms0 = .ok l)
    (hnd : l.Nodup) :
    ∃ ms1 l1,
      (update_config_with_discovered_meters cat max_meters
          (some (some { meters := some ms0 })) =
          .ok { written := some { meters := some ms1 }, errorLogged := false } ∨
        (update_config_with_discovered_meters cat max_meters
          (some (some { meters := some ms0 })) =
          .ok { written := none, errorLogged := false } ∧ ms1 = ms0)) ∧
      idStrings ms1 = .ok l1 ∧ l1.Nodup ∧
      update_config_with_discovered_meters cat max_meters
          (some (some { meters := some ms1 })) =
        .ok { written := none, errorLogged := false } := by
  obtain ⟨ds, hds, hidsF, hupd⟩ := merge_first cat max_meters ms0 l hc hlen hids
  by_cases hpos : 0 < ds.length
  · have hids1 : idStrings (ms0 ++ ds) = .ok (l ++
        ((cat.map fun kv => pyStr kv.1).filter (fun s => !l.contains s))) :=
      idStrings_append _ _ _ _ hids hidsF
    have hFnd : ((cat.map fun kv => pyStr kv.1).filter (fun s => !l.contains s)).Nodup :=
      List.Nodup.filter _ hk
    have hdisj : l.Disjoint ((cat.map fun kv => pyStr kv.1).filter
        (fun s => !l.contains s)) := by
      intro a hal haF
      have h2 := (List.mem_filter.mp haF).2
      rw [Bool.not_eq_true'] at h2
      exact contains_false_not_mem h2 hal
    have hl1nd : (l ++ ((cat.map fun kv => pyStr kv.1).filter
        (fun s => !l.contains s))).Nodup :=
      hnd.append hFnd hdisj
    have hall : ∀ kv ∈ cat, pyValInStrSet kv.1
        (l ++ ((cat.map fun kv => pyStr kv.1).filter (fun s => !l.contains s))) = true := by
      intro kv hkv
      obtain ⟨s, n, h1, h2, h3⟩ := canonicalKeyB_spec kv.1 (hc kv hkv)
      rw [h1]
      show (l ++ _).contains s = true
      rw [contains_mem_str, List.mem_append]
      by_cases hls : l.contains s
      · exact Or.inl (contains_mem_str.mp hls)
      · refine Or.inr (List.mem_filter.mpr ⟨?_, ?_⟩)
        · exact List.mem_map.mpr ⟨kv, hkv, by rw [h1, pyStr]⟩
        · simp only [Bool.not_eq_true] at hls
          rw [hls]
          rfl
    refine ⟨ms0 ++ ds, _, Or.inl ?_, hids1, hl1nd, ?_⟩
    · rw [hupd, if_pos hpos]
    · exact merge_noop cat max_meters (ms0 ++ ds) _ hall hids1
  · have hds0 : ds = [] := List.length_eq_zero.mp (by omega)
    subst hds0
    have hF : ((cat.map fun kv => pyStr kv.1).filter (fun s => !l.contains s)) = [] := by
      simpa only [idStrings, Except.ok.injEq] using hidsF.symm
    have hall : ∀ kv ∈ cat, pyValInStrSet kv.1 l = true := by
      intro kv hkv
      obtain ⟨s, n, h1, h2, h3⟩ := canonicalKeyB_spec kv.1 (hc kv hkv)
      rw [h1]
      show l.contains s = true
      have hsmem : s ∈ cat.map fun kv => pyStr kv.1 :=
        List.mem_map.mpr ⟨kv, hkv, by rw [h1, pyStr]⟩
      have := List.filter_eq_nil_iff.mp hF s hsmem
      simpa using this
    refine ⟨ms0, l, Or.inr ⟨?_, rfl⟩, hids, hnd, merge_noop cat max_meters ms0 l hall hids⟩
    rw [hupd]
    simp

/-- C1 (witness): the amended theorem applied to the canonical-keyed
catalog `{'10': scm/gas}`, an empty meter list, and `max_meters = 25`. -/
theorem C1_merge_idempotent_witness :
    ∃ ms1 l1,
      (update_config_with_discovered_meters catalog10 25
          (some (some { meters := some [] })) =
          .ok { written := some { meters := some ms1 }, errorLogged := false } ∨
        (update_config_with_discovered_meters catalog10 25
          (some (some { meters := some [] })) =
          .ok { written := none, errorLogged := false } ∧ ms1 = [])) ∧
      idStrings ms1 = .ok l1 ∧ l1.Nodup ∧
      update_config_with_discovered_meters catalog10 25
          (some (some { meters := some ms1 })) =
        .ok { written := none, errorLogged := false } :=
  C1_merge_idempotent_amended catalog10 25 [] []
    (by decide) (by decide) (by decide) rfl (by decide)

/-- C2 (counterexample): `load_discovered_meters` applies no capacity
check, so constructing a tracker with `max_meters = 1` against a
catalog file holding two meters yields an in-memory catalog of size 2,
violating the claimed `|catalog| ≤ max_meters` invariant at
construction time. -/
theorem C2_capacity_counterexample :
    load_discovered_meters (some (.ymap [(.ystr "discovered_meters", twoMeterYaml)])) =
      some twoMeterYaml ∧
    yamlLen twoMeterYaml = 2 ∧ ¬ (2 ≤ 1) :=
  ⟨rfl, rfl, by decide⟩

/-- C2 (amended): from any initial catalog within the bound (which a
load of a well-sized file yields), every sequence of `record`, `save`
and `merge` operations keeps `|catalog| ≤ max_meters`, only ever
appends entries (never removes), and a `record` against a catalog at
or above capacity leaves it unchanged; the unguarded case is the
initial load itself, which performs no capacity check. -/
theorem C2_capacity_amended (max_meters : Nat) (init : Catalog) (ops : List TrackerOp)
    (h : init.length ≤ max_meters) :
    (runOps max_meters init ops).length ≤ max_meters ∧
      (∃ tl, runOps max_meters init ops = init ++ tl) ∧
      (max_meters ≤ init.length →
        ∀ k p c, add_meter init max_meters k p c = init) := by
  obtain ⟨h1, h2⟩ := runOps_invariant max_meters ops init h
  exact ⟨h1, h2, fun hcap k p c => add_meter_at_capacity init max_meters k p c hcap⟩

/-- C2 (witness): the amended theorem applied to an initially empty
catalog with `max_meters = 1` and two successive records; the catalog
holds one entry and the second record was dropped. -/
theorem C2_capacity_witness :
    (runOps 1 [] [.record (.pstr "1") (.pstr "scm") none,
                  .record (.pstr "2") (.pstr "scm") none]).length ≤ 1 ∧
      (∃ tl, runOps 1 [] [.record (.pstr "1") (.pstr "scm") none,
                          .record (.pstr "2") (.pstr "scm") none] = [] ++ tl) ∧
      (1 ≤ ([] : Catalog).length →
        ∀ k p c, add_meter [] 1 k p c = []) :=
  C2_capacity_amended 1 []
    [.record (.pstr "1") (.pstr "scm") none, .record (.pstr "2") (.pstr "scm") none]
    (by decide)

/-- C3: for every protocol string and optional consumption,
`guess_meter_type` implements exactly the claimed policy
(`classify_spec`, transcribed from the specification): lower-case the
protocol; `energy` for `idm`/`netidm`; for `scm`/`scm+`, `water` iff
consumption exceeds 100000 (absent gives `gas`); for
`r900`/`r900bcd`, `water` iff consumption exceeds 50000; `energy` for
every other protocol including the empty string. -/
theorem C3_classifier_policy (protocol : String) (consumption : Option Int) :
    guess_meter_type protocol consumption = classify_spec protocol consumption := by
  unfold guess_meter_type classify_spec
  rw [consumption_exceeds_pos consumption 100000 (by norm_num),
      consumption_exceeds_pos consumption 50000 (by norm_num)]
  by_cases hp : protocol = ""
  · subst hp
    simp [strLower_empty]
  · simp only [if_neg hp]

/-- C4 (counterexample): with a non-empty catalog and an absent or
unreadable primary configuration file, the merge pass is aborted: the
`open` failure lands in the broad `except` handler, nothing is added,
and nothing is written — contradicting the claim that an absent file
is treated as an empty document whose pass still adds the entries. -/
theorem C4_absent_config_counterexample :
    update_config_with_discovered_meters catalog10 25 none =
      .ok { written := none, errorLogged := true } := by decide

/-- C4 (amended): only a file that is present but parses to an empty
document (`safe_load` returning `None`) is treated as an empty document
with an empty meter list: a non-empty catalog (canonical keys, within
budget) then has every entry added and written out on that pass.  An
absent/unreadable file instead aborts the pass with a logged error. -/
theorem C4_empty_config_amended (cat : Catalog) (max_meters : Nat)
    (hne : cat ≠ [])
    (hc : ∀ kv ∈ cat, canonicalKeyB kv.1 = true)
    (hlen : cat.length ≤ max_meters) :
    ∃ ms1, update_config_with_discovered_meters cat max_meters (some none) =
        .ok { written := some { meters := some ms1 }, errorLogged := false } ∧
      ms1.length = cat.length := by
  obtain ⟨ds, hds, hidsF⟩ := newDefs_canonical [] cat hc
  have hFlen : ds.length = cat.length := by
    have h1 := idStrings_length ds _ hidsF
    rw [h1]
    simp [List.contains]
  have hpos : 0 < ds.length := by
    rw [hFlen]
    exact List.length_pos.mpr hne
  refine ⟨ds, ?_, hFlen⟩
  rw [update_config_with_discovered_meters, if_neg (by simp [hne])]
  have hstep : mergeTry cat max_meters (some none) =
      .ok { written := some { meters := some ds }, errorLogged := false } := by
    have hred : mergeTry cat max_meters (some none) =
        (match addLoop max_meters [] cat 0 [] with
          | .error e => .error e
          | .ok (ms1, count) =>
            .ok { written := if 0 < count then some { meters := some ms1 } else none
                  errorLogged := false }) := rfl
    rw [hred, addLoop_eq_newDefs max_meters [] cat 0 [] (by omega), hds]
    simp [hpos]
  rw [hstep]

/-- C4 (witness): the amended theorem applied to the catalog
`{'10': scm/gas}` and an empty-parsing configuration file. -/
theorem C4_empty_config_witness :
    ∃ ms1, update_config_with_discovered_meters catalog10 25 (some none) =
        .ok { written := some { meters := some ms1 }, errorLogged := false } ∧
      ms1.length = catalog10.length :=
  C4_empty_config_amended catalog10 25 (by decide) (by decide) (by decide)

/-- C5 (counterexample): with the non-integer-coercible meter id
`'abc'` in the catalog and a readable configuration, the merge returns
normally with the failure logged and nothing written — it does not
raise the malformed-id error to its caller as the claim states. -/
theorem C5_invalid_id_counterexample :
    update_config_with_discovered_meters
        [(.pstr "abc", { protocol := "scm", device_class := "gas",
                         first_seen_consumption := none })] 25
        (some (some { meters := some [] })) =
      .ok { written := none, errorLogged := true } := by decide

/-- C5 (amended): the merge contains every error — filesystem and
parse errors and malformed meter ids alike: for every catalog,
capacity, and file state, `update_config_with_discovered_meters`
returns normally (the broad `except Exception` handler catches the
`ValueError` from `int(meter_id)` exactly as it catches I/O errors),
so no error of any kind propagates to the caller. -/
theorem C5_merge_contains_errors (cat : Catalog) (max_meters : Nat)
    (file : Option (Option PrimaryDoc)) :
    ∃ o, update_config_with_discovered_meters cat max_meters file = .ok o := by
  rw [update_config_with_discovered_meters]
  by_cases h : cat.isEmpty
  · rw [if_pos h]; exact ⟨_, rfl⟩
  · rw [if_neg h]
    cases hm : mergeTry cat max_meters file with
    | error e => exact ⟨_, rfl⟩
    | ok o => exact ⟨o, rfl⟩

/-- C6 (counterexample): the derivation is not collision-free — the two
distinct primary paths `config.yaml` and `config.yml`, differing only in
their extension, derive the same catalog path `config_discovered.yaml`. -/
theorem C6_path_collision_counterexample :
    discovered_file_path "config.yaml" = "config_discovered.yaml" ∧
    discovered_file_path "config.yml" = "config_discovered.yaml" ∧
    "config.yaml" ≠ "config.yml" :=
  ⟨by decide, by decide, by decide⟩

/-- C6 (amended): the derivation is a pure function of the path that
substitutes the extension marker with `_discovered.yaml`: for a
dot-free stem, both `stem.yaml` and `stem.yml` derive
`stem_discovered.yaml`.  It normalizes the `.yml` family to `.yaml`
and is therefore not injective: the `.yaml`/`.yml` twins collide. -/
theorem C6_path_derivation_amended (stem : String) (hs : ∀ c ∈ stem.data, c ≠ '.') :
    discovered_file_path (stem ++ ".yaml") = stem ++ "_discovered.yaml" ∧
    discovered_file_path (stem ++ ".yml") = stem ++ "_discovered.yaml" :=
  ⟨discovered_path_stem_yaml stem hs, discovered_path_stem_yml stem hs⟩

/-- C6 (witness): the amended theorem applied to the stem `config`. -/
theorem C6_path_derivation_witness :
    discovered_file_path ("config" ++ ".yaml") = "config" ++ "_discovered.yaml" ∧
    discovered_file_path ("config" ++ ".yml") = "config" ++ "_discovered.yaml" :=
  C6_path_derivation_amended "config" (by decide)

/-- C7: record is idempotent and first-classification-wins — for every
catalog and every meter id already present as a key, a subsequent
`add_meter` call with that id, whatever its protocol and consumption,
leaves the whole catalog (and hence the stored entry) unchanged. -/
theorem C7_record_idempotent (d : Catalog) (max_meters : Nat) (k p : PyVal)
    (c : Option Int) (h : (d.any fun kv => kv.1 == k) = true) :
    add_meter d max_meters k p c = d :=
  add_meter_mem_noop d max_meters k p c h

/-- C7 (witness): recording the already-present id `'1'` again with a
different protocol and consumption changes nothing. -/
theorem C7_record_idempotent_witness :
    add_meter [(.pstr "1", { protocol := "scm", device_class := "gas",
                             first_seen_consumption := none })] 25
        (.pstr "1") (.pstr "idm") (some 7) =
      [(.pstr "1", { protocol := "scm", device_class := "gas",
                     first_seen_consumption := none })] :=
  C7_record_idempotent _ 25 (.pstr "1") (.pstr "idm") (some 7) (by decide)

/-- C8 (counterexample): `add_meter` stores the meter id as given, with
no string coercion: recording the int `12345` and then the string
`'12345'` — two ids with the same string form — creates two distinct
catalog entries instead of hitting the same one. -/
theorem C8_record_key_counterexample :
    add_meter (add_meter [] 25 (.pint 12345) (.pstr "scm") none) 25
        (.pstr "12345") (.pstr "scm") none =
      [(.pint 12345, { protocol := "scm", device_class := "gas",
                       first_seen_consumption := none }),
       (.pstr "12345", { protocol := "scm", device_class := "gas",
                         first_seen_consumption := none })] ∧
    pyStr (.pint 12345) = pyStr (.pstr "12345") :=
  ⟨by decide, by decide⟩

/-- C8 (amended): record keys the catalog by the meter id value itself
(no normalization to string): repeating a record with the same meter id
value — whatever the protocol or consumption — never creates a second
entry, while ids equal only after string coercion (an int and its
decimal string) land in different entries, as the counterexample
shows. -/
theorem C8_record_key_amended (d : Catalog) (max_meters : Nat) (k p p2 : PyVal)
    (c c2 : Option Int) :
    add_meter (add_meter d max_meters k p c) max_meters k p2 c2 =
      add_meter d max_meters k p c := by
  by_cases h1 : (d.any fun kv => kv.1 == k) = true
  · rw [add_meter_mem_noop d max_meters k p c h1]
    exact add_meter_mem_noop d max_meters k p2 c2 h1
  · by_cases h2 : d.length < max_meters
    · have hfirst : add_meter d max_meters k p c = d ++
          [(k, { protocol := strLower (if pyTruthy p then pyStr p else "")
                 device_class := guess_meter_type (if pyTruthy p then pyStr p else "") c
                 first_seen_consumption := c })] := by
        unfold add_meter
        simp only [Bool.not_eq_true] at h1
        simp [h1, h2]
      rw [hfirst]
      apply add_meter_mem_noop
      simp
    · rw [add_meter_at_capacity d max_meters k p c (by omega)]
      rw [add_meter_at_capacity d max_meters k p2 c2 (by omega)]

/-- C9: saving the catalog and constructing a new tracker against the
same path reproduces an identical in-memory catalog: loading the
document written by `save_discovered_meters` yields exactly the
encoding of the saved catalog, and the encoding is injective, so equal
on-disk documents mean equal catalogs. -/
theorem C9_save_load_roundtrip :
    (∀ c : Catalog, load_discovered_meters (some (save_discovered_meters c)) =
      some (encodeCatalog c)) ∧ Function.Injective encodeCatalog :=
  ⟨fun _ => rfl, encodeCatalog_inj⟩

/-- C10: merge is all-or-nothing against malformed existing entries —
for every non-empty catalog and every configuration whose meters list
contains an element lacking an `'id'` key, the merge adds no meters at
all (the `KeyError` fires in the set comprehension before the add
loop), writes nothing, and the failure is caught and logged rather
than raised. -/
theorem C10_merge_all_or_nothing (cat : Catalog) (max_meters : Nat)
    (pre post : List CfgMeter) (h : cat ≠ []) :
    update_config_with_discovered_meters cat max_meters
      (some (some { meters := some (pre ++ .raw none :: post) })) =
      .ok { written := none, errorLogged := true } := by
  rw [update_config_with_discovered_meters, if_neg (by simp [h])]
  have hstep : mergeTry cat max_meters
      (some (some { meters := some (pre ++ .raw none :: post) })) = .error "KeyError" := by
    rw [mergeTry_doc]
    rw [if_neg (by simp), idStrings_keyerr]
  rw [hstep]

/-- C10 (witness): the theorem applied to the catalog `{'10': scm/gas}`
and a configuration whose single meter entry lacks an `'id'` key. -/
theorem C10_merge_all_or_nothing_witness :
    update_config_with_discovered_meters catalog10 25
      (some (some { meters := some ([] ++ .raw none :: []) })) =
      .ok { written := none, errorLogged := true } :=
  C10_merge_all_or_nothing catalog10 25 [] [] (by decide)
